import Mathlib

/-!
Verification of the audio-to-transcript pipeline of the repository
(`app/services/enhanced_transcription_service.py`,
`app/services/speaker_diarization_service.py`,
`app/services/deepgram_transcription_service.py`,
`app/services/deepgram_streaming_async.py`) against its specification.

Modelling conventions, used consistently below:

* Python floats are modelled as exact rationals (`ℚ`).  All float
  comparisons appearing in the source compare physically meaningful
  quantities far from the rounding granularity, so the rational model is
  faithful on every input exercised here.
* PCM byte strings are `List Nat` (each entry one byte).  `np.frombuffer`
  with `dtype=np.int16` is `frombufferInt16`, which fails (models the
  `ValueError` numpy raises) exactly on odd-length input.
* A root-mean-square value `rms = sqrt(meanSquare)` is irrational in
  general, so comparisons `rms > t` with `t ≥ 0` are decided by the
  equivalent squared comparison `meanSquare > t^2`; each such rewrite is
  noted at the definition it occurs in.  Where the source stores and
  averages raw RMS values (the VAD state machine), the machine is modelled
  over already-measured per-chunk values `(is_speech, rms)`; the byte-level
  measurement is modelled separately and the two layers are connected by
  `MeasChunk.Realizes` / `constChunk`.
-/

namespace AudioPipeline

/-! ## Configuration constants

Default values of `TranscriptionConfig`
(`app/config/transcription_config.py`) and the fixed thresholds of
`SpeakerDiarizationService.__init__`
(`app/services/speaker_diarization_service.py`, lines 27-44). -/

/-- `TranscriptionConfig.min_rms_8k = 50.0`. -/
def min_rms_8k : ℚ := 50

/-- `TranscriptionConfig.min_rms_16k = 150.0`. -/
def min_rms_16k : ℚ := 150

/-- `TranscriptionConfig.max_amplitude_silence = 300.0`. -/
def max_amplitude_silence : ℚ := 300

/-- `TranscriptionConfig.max_buffer_duration = 10.0` (seconds). -/
def max_buffer_duration : ℚ := 10

/-- `TranscriptionConfig.min_bytes_8k = 48000`. -/
def min_bytes_8k : Nat := 48000

/-- `TranscriptionConfig.min_bytes_16k = 96000`. -/
def min_bytes_16k : Nat := 96000

/-- `SpeakerDiarizationService.vad_threshold = 0.03` (normalized RMS). -/
def vad_threshold : ℚ := 3 / 100

/-- `SpeakerDiarizationService.silence_duration_to_segment = 0.5` (seconds):
the silence-hysteresis duration. -/
def silence_duration_to_segment : ℚ := 1 / 2

/-- `SpeakerDiarizationService.min_speech_duration = 0.8` (seconds). -/
def min_speech_duration : ℚ := 4 / 5

/-- `SpeakerDiarizationService.min_segment_rms_agent = 200.0`. -/
def min_segment_rms_agent : ℚ := 200

/-- `SpeakerDiarizationService.min_segment_rms_technician = 2.0`. -/
def min_segment_rms_technician : ℚ := 2

/-! ## Channel roles -/

/-- The two channel roles of a call (spec: caller = `technician`,
operator = `agent`). -/
inductive Speaker
  | technician
  | agent
deriving DecidableEq, Repr

/-- `SpeakerDiarizationService.get_min_rms_for_speaker` (lines 51-69): the
buffer key is always `f"{session_id}_{speaker}"`, so the substring tests
`'_agent' in session_id` / `'_technician' in session_id` resolve to the
speaker role whenever the bare session id contains neither marker (the only
case the service constructs). -/
def get_min_rms_for_speaker : Speaker → ℚ
  | Speaker.agent => min_segment_rms_agent
  | Speaker.technician => min_segment_rms_technician

/-- Default sample rate by role
(`enhanced_transcription_service.py` line 137:
`8000 if speaker == 'technician' else 16000`). -/
def defaultSampleRate : Speaker → Nat
  | Speaker.technician => 8000
  | Speaker.agent => 16000

/-! ## Byte-level sample decoding and energy VAD -/

/-- One little-endian signed 16-bit sample from two bytes. -/
def int16OfBytes (lo hi : Nat) : Int :=
  let u := lo % 256 + 256 * (hi % 256)
  if u < 32768 then (u : Int) else (u : Int) - 65536

/-- `np.frombuffer(audio_data, dtype=np.int16)`: decodes byte pairs, and
models the `ValueError` ("buffer size must be a multiple of element size")
numpy raises on odd-length input as `Except.error`. -/
def frombufferInt16 : List Nat → Except Unit (List Int)
  | [] => Except.ok []
  | [_] => Except.error ()
  | lo :: hi :: rest =>
    match frombufferInt16 rest with
    | Except.error e => Except.error e
    | Except.ok s => Except.ok (int16OfBytes lo hi :: s)

/-- Sum of squared samples (an integer; the numerator of the mean square). -/
def sumSqZ (samples : List Int) : Int :=
  (samples.map (fun s => s * s)).sum

/-- `SpeakerDiarizationService._detect_voice_activity` (lines 177-206),
restricted to its speech verdict.  The source computes
`normalized_rms = sqrt(mean(samples^2)) / 32768` and tests
`normalized_rms > 0.03`; both sides being nonnegative, this is equivalent to
`mean(samples^2) > (0.03 * 32768)^2`, i.e. with `n` samples,
`10000 * sum(samples^2) > 9 * 32768^2 * n`, which is the integer comparison
used here.  On an empty buffer `np.mean` yields `nan` and every comparison
with `nan` is `False`, modelled by the `n = 0` guard; on odd-length input
`np.frombuffer` raises inside the `try`, the handler returns
`(False, 0.0)`. -/
def detect_voice_activity (audio : List Nat) : Bool :=
  match frombufferInt16 audio with
  | Except.error _ => false
  | Except.ok samples =>
    samples.length ≠ 0 && 9 * 1073741824 * (samples.length : Int) < 10000 * sumSqZ samples

/-- The second sample decode in `SpeakerDiarizationService.check_speech_ended`
(line 244): `audio_array = np.frombuffer(audio_data, dtype=np.int16)` runs
outside any exception handler, so its `ValueError` on an odd-length chunk
propagates out of `check_speech_ended` (and out of
`process_audio_stream`). -/
def check_speech_ended_decode (audio : List Nat) : Except Unit (List Int) :=
  frombufferInt16 audio

/-! ## VAD state machine

`SpeakerDiarizationService.check_speech_ended` (lines 208-309).  The
per-chunk measurement `(is_speech, absolute_rms)` is taken as input (see the
file header); the state-machine logic below is a line-by-line transcription
of the source.  The unused `chunk_duration` parameter of the source is
dropped. -/

/-- One entry of `SpeakerDiarizationService.vad_state` (line 231-238). -/
structure VadState where
  is_speaking : Bool
  silence_start : Option ℚ
  last_speech_timestamp : Option ℚ
  speech_start : Option ℚ
  rms_samples : List ℚ
deriving DecidableEq, Repr

/-- The freshly initialized VAD state (lines 232-238). -/
def initVadState : VadState :=
  { is_speaking := false, silence_start := none, last_speech_timestamp := none,
    speech_start := none, rms_samples := [] }

/-- The reason string returned by `check_speech_ended` /
`process_audio_stream`, as a finite type.  The source uses strings; the
only test performed on them downstream is
`reason.startswith("rms_too_low")`, which maps to equality with
`rms_too_low` here. -/
inductive SegReason
  | speech_ongoing
  | silence_accumulating
  | no_active_speech
  | rms_too_low
  | silence_threshold_reached
  | no_rms_data
  | max_duration_exceeded
deriving DecidableEq, Repr

/-- The `(should_segment, reason, pause_duration_ms)` triple returned by
`check_speech_ended`. -/
structure VadOut where
  should_segment : Bool
  reason : SegReason
  pause_ms : ℚ
deriving DecidableEq, Repr

/-- `SpeakerDiarizationService.check_speech_ended` (lines 208-309) over the
measured chunk values `(is_speech, abs_rms)`. -/
def check_speech_ended (speaker : Speaker) (st : VadState)
    (is_speech : Bool) (abs_rms : ℚ) (now : ℚ) : VadState × VadOut :=
  if is_speech then
    -- lines 248-260: silence → speech resets speech_start and rms_samples,
    -- then the chunk RMS is appended and the speaking flags updated
    let base := if st.is_speaking then st
      else { st with speech_start := some now, rms_samples := [] }
    ({ base with
        rms_samples := base.rms_samples ++ [abs_rms],
        is_speaking := true, last_speech_timestamp := some now,
        silence_start := none },
     { should_segment := false, reason := SegReason.speech_ongoing, pause_ms := 0 })
  else if st.is_speaking then
    -- lines 264-306: trailing silence while state says speaking
    let sstart := st.silence_start.getD now
    let stS := { st with silence_start := some sstart }
    let silence_duration := now - sstart
    if silence_duration ≥ silence_duration_to_segment then
      if stS.rms_samples.length ≠ 0 then
        let avg_rms := stS.rms_samples.sum / (stS.rms_samples.length : ℚ)
        if avg_rms < get_min_rms_for_speaker speaker then
          ({ stS with is_speaking := false, silence_start := none, rms_samples := [] },
           { should_segment := true, reason := SegReason.rms_too_low,
             pause_ms := silence_duration * 1000 })
        else
          ({ stS with is_speaking := false, silence_start := none, rms_samples := [] },
           { should_segment := true, reason := SegReason.silence_threshold_reached,
             pause_ms := silence_duration * 1000 })
      else
        ({ stS with is_speaking := false, silence_start := none },
         { should_segment := true, reason := SegReason.no_rms_data, pause_ms := 0 })
    else
      (stS, { should_segment := false, reason := SegReason.silence_accumulating,
              pause_ms := silence_duration * 1000 })
  else
    (st, { should_segment := false, reason := SegReason.no_active_speech, pause_ms := 0 })

/-! ## Measured chunks -/

/-- An audio chunk together with its measured quantities: byte length, the
energy-VAD verdict, its absolute RMS, its sum of squared samples and its
peak absolute amplitude.  `Realizes` below states when these fields agree
with a concrete sample list. -/
structure MeasChunk where
  bytes_len : Nat
  is_speech : Bool
  rms : ℚ
  sum_sq : ℚ
  peak : Nat
deriving DecidableEq, Repr

/-- Peak absolute amplitude `max(abs(s) for s in samples)` (total version;
the source only evaluates it on nonempty sample lists). -/
def maxAbs (samples : List Int) : Nat :=
  (samples.map Int.natAbs).foldl max 0

/-- The measured fields of `c` are those of the concrete 16-bit sample list
`samples`. -/
structure MeasChunk.Realizes (c : MeasChunk) (samples : List Int) : Prop where
  len_eq : c.bytes_len = 2 * samples.length
  sum_sq_eq : c.sum_sq = (sumSqZ samples : ℚ)
  peak_eq : c.peak = maxAbs samples
  rms_nonneg : 0 ≤ c.rms
  rms_sq : c.rms * c.rms * (samples.length : ℚ) = (sumSqZ samples : ℚ)
  is_speech_eq : c.is_speech =
    (samples.length ≠ 0 && 9 * 1073741824 * (samples.length : Int) < 10000 * sumSqZ samples)

/-- A constant-amplitude chunk: `nsamples` 16-bit samples all equal to `a`.
Its RMS is exactly `a`. -/
def constChunk (a : Nat) (nsamples : Nat) : MeasChunk :=
  { bytes_len := 2 * nsamples,
    is_speech := nsamples ≠ 0 &&
      9 * 1073741824 * (nsamples : Int) < 10000 * ((a : Int) * a * nsamples),
    rms := a,
    sum_sq := (a : ℚ) * a * nsamples,
    peak := a }

/-! ## Hallucination filter

`EnhancedTranscriptionService._is_hallucination`
(`enhanced_transcription_service.py`, lines 599-714).  Strings are modelled
through their character lists.  Python `str.lower()` is modelled by
`Char.toLower` (ASCII case-folding; every phrase in the filter lists is
already lower-case, so the phrase tests agree with the source on all
ASCII-cased inputs).  Python `str.isalnum()` is modelled for the Basic Latin
and Latin-1 letters that occur in this repository.  All float-ratio
comparisons of the source are decided by integer cross-multiplication
(noted inline), keeping the function kernel-computable. -/

/-- Python default whitespace, as used by `str.strip()` and `str.split()`. -/
def pyIsSpace (c : Char) : Bool :=
  c = ' ' || c = '\t' || c = '\n' || c = '\r' || c = '\x0b' || c = '\x0c'

/-- `str.strip()` on a character list. -/
def pyStripL (s : List Char) : List Char :=
  ((s.dropWhile pyIsSpace).reverse.dropWhile pyIsSpace).reverse

/-- Helper of `pyWords`: accumulates the current word (reversed). -/
def pyWordsAux : List Char → List Char → List (List Char)
  | [], acc => if acc.isEmpty then [] else [acc.reverse]
  | c :: rest, acc =>
    if pyIsSpace c then
      if acc.isEmpty then pyWordsAux rest [] else acc.reverse :: pyWordsAux rest []
    else pyWordsAux rest (c :: acc)

/-- `str.split()` with no separator: whitespace-run splitting, no empty
words. -/
def pyWords (s : List Char) : List (List Char) :=
  pyWordsAux s []

/-- Does `hay` start with `needle`? -/
def startsWithL : List Char → List Char → Bool
  | [], _ => true
  | _ :: _, [] => false
  | a :: as, b :: bs => a == b && startsWithL as bs

/-- Python `needle in hay` (contiguous substring test). -/
def containsL (needle : List Char) : List Char → Bool
  | [] => needle.isEmpty
  | c :: rest => startsWithL needle (c :: rest) || containsL needle rest

/-- Python `str.isalnum()` restricted to Basic Latin digits/letters and the
Latin-1 letters (U+00C0..U+00FF without the multiplication and division
signs) — the alphabet occurring in this code base.  The decorative symbols
relevant below (bullet, musical notes, stars) are not alphanumeric in
either model. -/
def pyIsAlnum (c : Char) : Bool :=
  (('0' ≤ c && c ≤ '9') || ('a' ≤ c && c ≤ 'z') || ('A' ≤ c && c ≤ 'Z')
   || (0xC0 ≤ c.toNat && c.toNat ≤ 0xFF && c.toNat ≠ 0xD7 && c.toNat ≠ 0xF7))

/-- The `hallucinations` phrase list of `_is_hallucination` (lines 636-677),
matched as substrings of the lower-cased stripped text. -/
def hallucination_phrases : List String :=
  [ "sous-titres par", "sous-titrage par", "subtitle by", "subtitled by",
    "sous-titres réalisés", "amara.org", "générique", "credits",
    "❤️ par SousTitreur.com",
    "merci d\x27avoir regardé", "merci de regarder", "thanks for watching",
    "thank you for watching", "à bientôt", "à la prochaine",
    "et je vous dis à bientôt", "pour une nouvelle vidéo",
    "♪♪♪", "♪ music ♪", "music playing", "[musique]", "[music]",
    "applause", "applaudissements", "[applaudissements]", "[silence]",
    "[bruit]", "[noise]",
    "je vous remercie", "bonne journée", "c\x27est tout", "c\x27est ça",
    "et voilà" ]

/-- The `short_hallucinations` list (lines 693-697), matched by exact
equality with the lower-cased stripped text. -/
def short_hallucinations : List String :=
  [ "merci.", "au revoir.", "bonjour.", "oui.", "non.", "ok.",
    "d\x27accord.", "voilà.", "alors.", "euh...", "...", "hum.", "hmm.",
    "merci", "au revoir", "bonjour", "oui", "non", "ok" ]

/-- `EnhancedTranscriptionService._is_hallucination` (lines 599-714).
Ratio comparisons are decided by cross-multiplication:
`count/len > 0.5` as `2*count > len`, `unique/len < 0.1` as
`10*unique < len`, `alnum/len < 0.3` as `10*alnum < 3*len` (all with
`len > 0` at the point of use, as in the source). -/
def is_hallucination (text : String) : Bool :=
  let t := text.toList
  -- `if not text or not text.strip(): return True`
  if t.isEmpty || (pyStripL t).isEmpty then true
  -- Pattern 1: `text.count(BULLET) / len(text) > 0.5`
  else if t.length < 2 * t.count '•' then true
  else
    -- Pattern 2: low character diversity after removing ' ', '\n', '\t'
    let tns := t.filter (fun c => !(c = ' ' || c = '\n' || c = '\t'))
    if tns.length ≠ 0 && (tns.dedup.length < 5 || 10 * tns.dedup.length < tns.length) then
      true
    else
      -- Pattern 4: `len(words) <= 2 and len(text.strip()) < 15`
      let ws := pyWords (pyStripL t)
      if ws.length ≤ 2 && (pyStripL t).length < 15 then true
      -- Pattern 5: `len(words) >= 2 and len(set(words)) == 1`
      else if 2 ≤ ws.length && ws.dedup.length = 1 then true
      else
        -- `text_lower = text.lower().strip()`
        let tl := pyStripL (t.map Char.toLower)
        if short_hallucinations.any (fun p => p.toList == tl) then true
        else if hallucination_phrases.any (fun p => containsL p.toList tl) then true
        -- alphanumeric ratio below 30%
        else 10 * (t.filter pyIsAlnum).length < 3 * t.length

/-! ## Deepgram batch adapter

`DeepgramTranscriptionService.transcribe` / `_parse_response`
(`deepgram_transcription_service.py`, lines 44-189).  The HTTP exchange is
modelled by its outcome: a timeout (`httpx.TimeoutException`) or a response
with a status code and a body.  A body field the source reads with `.get`
and a default is modelled by that field with the default standing for
"missing" (`channels = []`, `alternatives = []`, `transcript = ""`). -/

/-- One entry of `results.channels[0].alternatives`. -/
structure DgAlt where
  transcript : String
  confidence : ℚ
deriving DecidableEq, Repr

/-- One entry of `results.channels`. -/
structure DgChannelData where
  alternatives : List DgAlt
deriving DecidableEq, Repr

/-- A parsed Deepgram response body. -/
structure DgBody where
  channels : List DgChannelData
  duration : ℚ
deriving DecidableEq, Repr

/-- Outcome of the single HTTP POST the adapter makes. -/
inductive HttpOutcome
  | timeout
  | response (status : Nat) (body : DgBody)
deriving DecidableEq, Repr

/-- The normalized transcription result of the batch adapter. -/
structure DgResult where
  text : String
  confidence : ℚ
  language : String
  duration : ℚ
deriving DecidableEq, Repr

/-- `DeepgramTranscriptionService._parse_response` (lines 137-189). -/
def parse_response (body : DgBody) (language : String) : Option DgResult :=
  match body.channels with
  | [] => none
  | ch :: _ =>
    match ch.alternatives with
    | [] => none
    | alt :: _ =>
      let text := String.mk (pyStripL alt.transcript.toList)
      if text = "" then none
      else some { text := text, confidence := alt.confidence,
                  language := language, duration := body.duration }

/-- `DeepgramTranscriptionService.transcribe` (lines 44-131): one request,
`None` on timeout, `None` on any status other than 200, otherwise the
parsed body.  No retry exists in the source; the function consumes exactly
one `HttpOutcome`. -/
def deepgram_transcribe (outcome : HttpOutcome) (language : String) : Option DgResult :=
  match outcome with
  | HttpOutcome.timeout => none
  | HttpOutcome.response status body =>
    if status ≠ 200 then none
    else parse_response body language

/-! ## Pipeline coordinator

`EnhancedTranscriptionService` (`enhanced_transcription_service.py`).  The
per-channel state (one entry of `audio_buffers`, one of the diarization
service's `vad_state`, one of `streaming_connections`, all keyed by
`f"{session_id}_{speaker}"`) is gathered in `ChannelState`; channels never
read each other's state in the source, so one channel is modelled.  The two
external effects a flush can have — the speech backend and the Silero VAD
model — are supplied as an oracle recording their outcome for the one call
a flush makes. -/

/-- The relevant fields of `TranscriptionConfig` for one call into the
pipeline (the service reads the live config on every call). -/
inductive Backend
  | whisper
  | deepgram
deriving DecidableEq, Repr

structure Config where
  transcription_backend : Backend
  deepgram_use_streaming : Bool
  bypass_vad : Bool
  bypass_min_duration : Bool
  debug_show_hallucinations : Bool
deriving DecidableEq, Repr

/-- Outcomes of the external calls a single flush can make:
`whisper_text` is `response.text` of the Whisper API (`none` models an API
exception or a missing text field), `deepgram_outcome` the HTTP outcome of
the batch adapter, `silero_has_speech` the verdict of
`_validate_speech_with_silero_vad` (an external neural model). -/
structure BackendOracle where
  whisper_text : Option String
  deepgram_outcome : HttpOutcome
  silero_has_speech : Bool
deriving DecidableEq, Repr

/-- The transcription-result dictionary built in `_transcribe_buffer`
(lines 536-550) — the pipeline's `TranscriptSegment`. -/
structure TranscriptionResult where
  session_id : String
  text : String
  speaker_role : Speaker
  confidence : ℚ
  start_time : ℚ
  end_time : ℚ
  duration : ℚ
  language : String
  pause_duration_ms : ℚ
deriving DecidableEq, Repr

/-- `EnhancedTranscriptionService._process_with_agents` (lines 873-908):
returns whether the segment was pushed to the downstream handler
(`transcription_service.process_transcription_segment`).  Lines 890-892:
every `speaker_role` other than `'technician'` is skipped. -/
def process_with_agents (result : TranscriptionResult) : Bool :=
  result.speaker_role = Speaker.technician

/-- `SpeakerDiarizationService.should_process_segment` (lines 398-433):
both known roles require `segment_duration >= min_speech_duration`. -/
def should_process_segment (speaker_role : Speaker) (segment_duration : ℚ) : Bool :=
  match speaker_role with
  | Speaker.technician => segment_duration ≥ min_speech_duration
  | Speaker.agent => segment_duration ≥ min_speech_duration

/-- `EnhancedTranscriptionService._transcribe_with_whisper`
(lines 716-871), as a function of `response.text` (`none`: exception or
missing/None text).  Returns the accepted text and confidence:
empty/whitespace-only text yields `none`; a hallucinated text yields
`none` in production and the debug-marked text with confidence 0 when
`debug_show_hallucinations` is set; otherwise confidence defaults to 0.9
(line 862). -/
def transcribe_with_whisper (cfg : Config) (response_text : Option String) :
    Option (String × ℚ) :=
  match response_text with
  | none => none
  | some text =>
    if text = "" ∨ String.mk (pyStripL text.toList) = "" then none
    else if is_hallucination text then
      if cfg.debug_show_hallucinations then
        some ("[HALLUCINATION - AUDIO QUALITY ISSUE] " ++ text, 0)
      else none
    else some (text, 9 / 10)

/-- One entry of `EnhancedTranscriptionService.audio_buffers`
(lines 140-149), with chunks as measured chunks. -/
structure AudioBuffer where
  chunks : List MeasChunk
  start_time : ℚ
  last_chunk_time : ℚ
  total_duration : ℚ
  waiting_for_speech : Bool
  initial_skip_start : ℚ
  sample_rate : Nat
deriving DecidableEq, Repr

/-- Total bytes over the buffered chunks (line 165). -/
def bufferTotalBytes (b : AudioBuffer) : Nat :=
  (b.chunks.map MeasChunk.bytes_len).sum

/-- Total 16-bit samples (line 160: `len(chunk) // 2` summed). -/
def bufferTotalSamples (b : AudioBuffer) : Nat :=
  (b.chunks.map (fun c => c.bytes_len / 2)).sum

/-- Sum of squared samples over the buffered chunks (the numerator of the
combined segment's mean square). -/
def bufferSumSq (b : AudioBuffer) : ℚ :=
  (b.chunks.map MeasChunk.sum_sq).sum

/-- Peak absolute amplitude over the buffered chunks. -/
def bufferPeak (b : AudioBuffer) : Nat :=
  (b.chunks.map MeasChunk.peak).foldl max 0

/-- The gate threshold selection of `_transcribe_buffer` line 404:
`min_rms_8k if audio_sample_rate == 8000 else min_rms_16k`. -/
def gateMinRms (sample_rate : Nat) : ℚ :=
  if sample_rate = 8000 then min_rms_8k else min_rms_16k

/-- `DeepgramAsyncConnection` (`deepgram_streaming_async.py`): the
connection flag and the outbound audio queue. -/
structure StreamConn where
  is_connected : Bool
  audio_queue : List MeasChunk
deriving DecidableEq, Repr

/-- `DeepgramAsyncConnection.send_audio` (lines 221-231): when
disconnected, return `False` without queueing (the chunk is dropped);
otherwise enqueue the chunk for the sender loop and return `True`. -/
def StreamConn.send_audio (conn : StreamConn) (chunk : MeasChunk) : StreamConn × Bool :=
  if conn.is_connected then
    ({ conn with audio_queue := conn.audio_queue ++ [chunk] }, true)
  else (conn, false)

/-- The full per-channel state: the channel's entry (if any) in
`audio_buffers`, in the diarization service's `vad_state`, and in
`streaming_connections`. -/
structure ChannelState where
  buffer : Option AudioBuffer
  vad : Option VadState
  streaming : Option StreamConn
deriving DecidableEq, Repr

/-- A channel no chunk has been submitted for yet. -/
def initChannelState : ChannelState :=
  { buffer := none, vad := none, streaming := none }

/-- The new-buffer dictionary of lines 141-149. -/
def freshBuffer (timestamp : ℚ) (sample_rate : Nat) : AudioBuffer :=
  { chunks := [], start_time := timestamp, last_chunk_time := timestamp,
    total_duration := 0, waiting_for_speech := true,
    initial_skip_start := timestamp, sample_rate := sample_rate }

/-- The backend dispatch of `_transcribe_buffer` (lines 511-523): the
Deepgram batch adapter or the Whisper call, normalized to the accepted
`(text, confidence)` pair. -/
def backend_dispatch (cfg : Config) (oracle : BackendOracle) :
    Option (String × ℚ) :=
  match cfg.transcription_backend with
  | Backend.deepgram =>
    match deepgram_transcribe oracle.deepgram_outcome "fr" with
    | none => none
    | some r => some (r.text, r.confidence)
  | Backend.whisper => transcribe_with_whisper cfg oracle.whisper_text

/-- `EnhancedTranscriptionService._transcribe_buffer` (lines 353-565),
with the two external calls supplied by `oracle`.  Returns the emitted
result (if any) and whether `_process_with_agents` pushed it downstream.
The silence gate (lines 396-416) is entered exactly when
`struct.unpack` succeeds on the combined audio and yields at least one
sample, i.e. when the total byte count is even and nonzero (an odd total
raises `struct.error`, which the handler at line 420 swallows,
continuing without the gate); its comparisons
`rms < min_rms` and `rms < min_rms * 0.5` are decided on squares:
`sumSq/n < t^2` for `t ≥ 0`.  The per-chunk `sum_sq`/`peak` decomposition
of the combined segment is exact whenever every chunk has even byte
length (16-bit PCM), the only case the service produces. -/
def transcribe_buffer (cfg : Config) (oracle : BackendOracle)
    (session_id : String) (speaker : Speaker) (buffer : AudioBuffer)
    (current_timestamp : ℚ) (pause_duration_ms : ℚ) :
    Option TranscriptionResult × Bool :=
  if buffer.chunks.isEmpty then (none, false)
  else
    let totalBytes := bufferTotalBytes buffer
    let nsamples := totalBytes / 2
    let minRms := gateMinRms buffer.sample_rate
    let m := bufferSumSq buffer / (nsamples : ℚ)
    -- lines 409-411: silence if RMS and peak both below threshold
    if totalBytes % 2 = 0 ∧ nsamples ≠ 0 ∧ m < minRms * minRms ∧
        (bufferPeak buffer : ℚ) < max_amplitude_silence then (none, false)
    -- lines 414-416: very low RMS, regardless of peak
    else if totalBytes % 2 = 0 ∧ nsamples ≠ 0 ∧
        m < (minRms * (1 / 2)) * (minRms * (1 / 2)) then (none, false)
    -- lines 428-439: Silero VAD validation
    else if oracle.silero_has_speech = false then (none, false)
    else
      -- lines 470-487: minimum-duration check (speaker is always one of
      -- the two explicit roles here, so speaker_info.is_speech is True)
      let should_process := cfg.bypass_min_duration
        || should_process_segment speaker buffer.total_duration
      if should_process = false then (none, false)
      else
        -- lines 511-523: backend dispatch
        match backend_dispatch cfg oracle with
        | none => (none, false)
        | some (text, confidence) =>
          -- line 529: `if not transcription_result.get('text')`
          if text = "" then (none, false)
          else
            let result : TranscriptionResult :=
              { session_id := session_id, text := text, speaker_role := speaker,
                confidence := confidence, start_time := buffer.start_time,
                end_time := current_timestamp, duration := buffer.total_duration,
                language := "fr", pause_duration_ms := pause_duration_ms }
            (some result, process_with_agents result)

/-- What one `process_audio_stream` call did with the chunk. -/
inductive StepEvent
  | sent_to_stream
  | dropped_disconnected
  | buffered
  | flushed (pause_ms : ℚ)
  | discarded_low_rms
  | discarded_too_short
deriving DecidableEq, Repr

/-- Result of one `process_audio_stream` call: the new channel state, what
happened to the chunk, the emitted result (the function's return value)
and whether it was pushed downstream. -/
structure StepResult where
  state : ChannelState
  event : StepEvent
  emitted : Option TranscriptionResult
  forwarded : Bool
deriving DecidableEq, Repr

/-- The buffer-reset dictionary written after a flush or discard
(lines 183-191, 228-236, 244-252, 258-266): empty chunks, zeroed duration,
preserved `initial_skip_start`. -/
def clearedBuffer (timestamp : ℚ) (waiting_for_speech : Bool)
    (initial_skip_start : ℚ) (sample_rate : Nat) : AudioBuffer :=
  { chunks := [], start_time := timestamp, last_chunk_time := timestamp,
    total_duration := 0, waiting_for_speech := waiting_for_speech,
    initial_skip_start := initial_skip_start, sample_rate := sample_rate }

/-- The buffered-mode body of `EnhancedTranscriptionService.process_audio_stream`
(lines 129-270): buffer initialization and append, duration recomputation,
then either the byte-count bypass trigger (lines 174-196) or the VAD-based
segmentation (lines 198-270) including the forced flush at
`max_buffer_duration` (lines 210-217, which overwrites the reason, so a
forced flush skips the `rms_too_low` rejection branch). -/
def process_audio_stream_buffered (cfg : Config) (oracle : BackendOracle)
    (session_id : String) (speaker : Speaker) (st : ChannelState)
    (chunk : MeasChunk) (timestamp : ℚ) (sample_rate : Option Nat) : StepResult :=
  let effective_sample_rate := sample_rate.getD (defaultSampleRate speaker)
  let buf0 := match st.buffer with
    | some b => b
    | none => freshBuffer timestamp effective_sample_rate
  -- lines 154-165: append and recompute totals
  let buffer_sample_rate := buf0.sample_rate
  let bufA := { buf0 with
      chunks := buf0.chunks ++ [chunk],
      last_chunk_time := timestamp,
      total_duration :=
        ((((buf0.chunks ++ [chunk]).map (fun c => c.bytes_len / 2)).sum : ℕ) : ℚ)
          / (buffer_sample_rate : ℚ) }
  let total_bytes := bufferTotalBytes bufA
  if cfg.bypass_vad then
    -- lines 174-196
    let min_bytes := if buffer_sample_rate = 8000 then min_bytes_8k else min_bytes_16k
    if total_bytes ≥ min_bytes then
      let tr := transcribe_buffer cfg oracle session_id speaker bufA timestamp 0
      { state := { st with buffer := some (clearedBuffer timestamp false
          bufA.initial_skip_start effective_sample_rate) },
        event := StepEvent.flushed 0, emitted := tr.1, forwarded := tr.2 }
    else
      { state := { st with buffer := some bufA }, event := StepEvent.buffered,
        emitted := none, forwarded := false }
  else
    -- lines 198-270
    let vad0 := st.vad.getD initVadState
    let co := check_speech_ended speaker vad0 chunk.is_speech chunk.rms timestamp
    let vadA := co.1
    let force := decide (bufA.total_duration ≥ max_buffer_duration)
    let should_segment := co.2.should_segment || force
    let reason := if force then SegReason.max_duration_exceeded else co.2.reason
    if should_segment then
      let prev_initial_skip := bufA.initial_skip_start
      if reason = SegReason.rms_too_low then
        { state := { st with vad := some vadA, buffer := some (clearedBuffer
            timestamp true prev_initial_skip effective_sample_rate) },
          event := StepEvent.discarded_low_rms, emitted := none, forwarded := false }
      else if bufA.total_duration ≥ min_speech_duration then
        let tr := transcribe_buffer cfg oracle session_id speaker bufA timestamp
          co.2.pause_ms
        { state := { st with vad := some vadA, buffer := some (clearedBuffer
            timestamp true prev_initial_skip effective_sample_rate) },
          event := StepEvent.flushed co.2.pause_ms, emitted := tr.1, forwarded := tr.2 }
      else
        { state := { st with vad := some vadA, buffer := some (clearedBuffer
            timestamp true prev_initial_skip effective_sample_rate) },
          event := StepEvent.discarded_too_short, emitted := none, forwarded := false }
    else
      { state := { st with vad := some vadA, buffer := some bufA },
        event := StepEvent.buffered, emitted := none, forwarded := false }

/-- `EnhancedTranscriptionService.process_audio_stream` (lines 78-270).
Lines 107-127: with the Deepgram streaming backend configured, a chunk for
a channel with a registered connection goes to `send_audio` (dropped there
when the connection is not connected); with no registered connection the
source logs a warning and falls through to the buffered path. -/
def process_audio_stream (cfg : Config) (oracle : BackendOracle)
    (session_id : String) (speaker : Speaker) (st : ChannelState)
    (chunk : MeasChunk) (timestamp : ℚ) (sample_rate : Option Nat) : StepResult :=
  if cfg.transcription_backend = Backend.deepgram && cfg.deepgram_use_streaming then
    match st.streaming with
    | some conn =>
      let sa := conn.send_audio chunk
      { state := { st with streaming := some sa.1 },
        event := if sa.2 then StepEvent.sent_to_stream
          else StepEvent.dropped_disconnected,
        emitted := none, forwarded := false }
    | none =>
      -- "No streaming connection - fall through to buffered mode"
      process_audio_stream_buffered cfg oracle session_id speaker st chunk
        timestamp sample_rate
  else
    process_audio_stream_buffered cfg oracle session_id speaker st chunk
      timestamp sample_rate

/-- Iterate `process_audio_stream` over a list of (chunk, timestamp)
pairs, collecting the per-chunk events. -/
def runChunks (cfg : Config) (oracle : BackendOracle) (session_id : String)
    (speaker : Speaker) (st : ChannelState)
    (chunks : List (MeasChunk × ℚ)) : ChannelState × List StepEvent :=
  chunks.foldl
    (fun acc ct =>
      let r := process_audio_stream cfg oracle session_id speaker acc.1 ct.1 ct.2 none
      (r.state, acc.2 ++ [r.event]))
    (st, [])

/-! ## Shared fixtures for concrete evaluations -/

/-- Buffered-Whisper configuration with the VAD policy active. -/
def vadConfig : Config :=
  { transcription_backend := Backend.whisper, deepgram_use_streaming := false,
    bypass_vad := false, bypass_min_duration := false,
    debug_show_hallucinations := false }

/-- Deepgram configuration with streaming enabled. -/
def streamingConfig : Config :=
  { transcription_backend := Backend.deepgram, deepgram_use_streaming := true,
    bypass_vad := false, bypass_min_duration := false,
    debug_show_hallucinations := false }

/-- Deepgram batch (REST) configuration: streaming disabled. -/
def deepgramBatchConfig : Config :=
  { transcription_backend := Backend.deepgram, deepgram_use_streaming := false,
    bypass_vad := false, bypass_min_duration := false,
    debug_show_hallucinations := false }

/-- An ordinary recognized sentence (not matching any hallucination rule). -/
def sampleText : String := "the camera is broken and needs a replacement part"

/-- Oracle for runs whose backend succeeds with `sampleText`. -/
def defaultOracle : BackendOracle :=
  { whisper_text := some sampleText, deepgram_outcome := HttpOutcome.timeout,
    silero_has_speech := true }

/-- Oracle for runs whose batch backend call times out. -/
def timeoutOracle : BackendOracle :=
  { whisper_text := none, deepgram_outcome := HttpOutcome.timeout,
    silero_has_speech := true }

/-- A response body with no `channels` entry (malformed response). -/
def emptyBody : DgBody := { channels := [], duration := 0 }

/-- 100 ms of 8 kHz audio at constant amplitude 2000 (clearly above the
speech threshold `0.03 * 32768 = 983.04`). -/
def speechChunk : MeasChunk := constChunk 2000 800

/-- 100 ms of 8 kHz digital silence. -/
def silenceChunk : MeasChunk := constChunk 0 800

/-! ## Parity of the int16 decode -/

/-- Auxiliary strong induction for `frombufferInt16_parity`. -/
theorem frombufferInt16_parity_aux : ∀ (n : Nat) (audio : List Nat), audio.length ≤ n →
    (audio.length % 2 = 1 → frombufferInt16 audio = Except.error ()) ∧
    (audio.length % 2 = 0 → ∃ s, frombufferInt16 audio = Except.ok s ∧
      s.length = audio.length / 2) := by
  intro n
  induction n with
  | zero =>
    intro audio h
    match audio with
    | [] => simp [frombufferInt16]
    | a :: rest => simp at h
  | succ n ih =>
    intro audio h
    match audio with
    | [] => simp [frombufferInt16]
    | [b] => simp [frombufferInt16]
    | a :: b :: rest =>
      have hlen : rest.length ≤ n := by simp at h; omega
      have hr := ih rest hlen
      refine ⟨fun hodd => ?_, fun heven => ?_⟩
      · have h1 : rest.length % 2 = 1 := by simp at hodd; omega
        simp [frombufferInt16, hr.1 h1]
      · have h0 : rest.length % 2 = 0 := by simp at heven; omega
        obtain ⟨s, hs, hl⟩ := hr.2 h0
        refine ⟨int16OfBytes a b :: s, by simp [frombufferInt16, hs], ?_⟩
        simp [hl]
        omega

/-- `frombufferInt16` fails exactly on odd-length input, and on even-length
input produces one sample per byte pair. -/
theorem frombufferInt16_parity (audio : List Nat) :
    (audio.length % 2 = 1 → frombufferInt16 audio = Except.error ()) ∧
    (audio.length % 2 = 0 → ∃ s, frombufferInt16 audio = Except.ok s ∧
      s.length = audio.length / 2) :=
  frombufferInt16_parity_aux audio.length audio le_rfl

/-! ## Claim C10 -/

/-- Claim C10 (amended): for every byte string of zero or odd length the
energy detector `_detect_voice_activity` catches the decode failure (odd
length) or the `nan` comparison (zero length) and returns
`is_speech = false` without raising; however, the separate sample decode at
the top of `check_speech_ended` (line 244) runs outside the handler and
raises exactly on odd-length chunks, so an odd-length chunk submitted in
VAD mode does abort — the original claim's "chunk submission never aborts"
fails there. -/
theorem C10_detector_safe_but_unguarded_decode_raises :
    (∀ audio : List Nat, audio.length = 0 ∨ audio.length % 2 = 1 →
      detect_voice_activity audio = false) ∧
    (∀ audio : List Nat,
      check_speech_ended_decode audio = Except.error () ↔ audio.length % 2 = 1) := by
  constructor
  · intro audio h
    rcases h with h0 | hodd
    · have : audio = [] := List.length_eq_zero.mp h0
      subst this
      simp [detect_voice_activity, frombufferInt16]
    · have herr := (frombufferInt16_parity audio).1 hodd
      simp [detect_voice_activity, herr]
  · intro audio
    constructor
    · intro herr
      by_contra hne
      have h0 : audio.length % 2 = 0 := by omega
      obtain ⟨s, hs, _⟩ := (frombufferInt16_parity audio).2 h0
      rw [check_speech_ended_decode, hs] at herr
      exact Except.noConfusion herr
    · intro hodd
      rw [check_speech_ended_decode]
      exact (frombufferInt16_parity audio).1 hodd

/-- Claim C10, counterexample to the claim as stated: the 3-byte chunk
`[0, 0, 0]` is treated as silence by the detector, yet the unguarded decode
of `check_speech_ended` (the first statement executed on the chunk in the
VAD submission path) raises on it, so submission aborts. -/
theorem C10_counterexample_odd_chunk :
    detect_voice_activity [0, 0, 0] = false ∧
    check_speech_ended_decode [0, 0, 0] = Except.error () :=
  ⟨rfl, rfl⟩

/-- Witness for `C10_detector_safe_but_unguarded_decode_raises` at the
concrete inputs `[]` and `[0]`. -/
theorem C10_witness :
    (([] : List Nat).length = 0 ∨ ([] : List Nat).length % 2 = 1) ∧
    detect_voice_activity [] = false ∧
    (([0] : List Nat).length = 0 ∨ ([0] : List Nat).length % 2 = 1) ∧
    detect_voice_activity [0] = false ∧
    check_speech_ended_decode [0] = Except.error () :=
  ⟨Or.inl rfl,
   C10_detector_safe_but_unguarded_decode_raises.1 [] (Or.inl rfl),
   Or.inr rfl,
   C10_detector_safe_but_unguarded_decode_raises.1 [0] (Or.inr rfl),
   (C10_detector_safe_but_unguarded_decode_raises.2 [0]).mpr rfl⟩

/-! ## Claim C9 -/

/-- With the Deepgram backend selected, a flush whose adapter call produced
no result emits nothing and forwards nothing. -/
theorem transcribe_buffer_backend_none (cfg : Config) (oracle : BackendOracle)
    (sid : String) (sp : Speaker) (b : AudioBuffer) (ts p : ℚ)
    (hb : cfg.transcription_backend = Backend.deepgram)
    (hn : deepgram_transcribe oracle.deepgram_outcome "fr" = none) :
    transcribe_buffer cfg oracle sid sp b ts p = (none, false) := by
  have hbd : backend_dispatch cfg oracle = none := by
    simp [backend_dispatch, hb, hn]
  simp only [transcribe_buffer, hbd]
  split_ifs <;> rfl

/-- Claim C9: a batch backend call that times out, returns a non-2xx
status, or returns a malformed body (no channels, no alternatives, or an
empty transcript) yields `None` from the adapter; the adapter makes exactly
one request per call (it consumes a single `HttpOutcome`); and the
pipeline then emits no segment for the utterance and continues to hold a
live buffer for subsequent chunks. -/
theorem C9_batch_failure_returns_none_pipeline_continues :
    (∀ language, deepgram_transcribe HttpOutcome.timeout language = none) ∧
    (∀ (status : Nat) (body : DgBody) (language : String),
      ¬ (200 ≤ status ∧ status ≤ 299) →
      deepgram_transcribe (HttpOutcome.response status body) language = none) ∧
    (∀ (status : Nat) (body : DgBody) (language : String), body.channels = [] →
      deepgram_transcribe (HttpOutcome.response status body) language = none) ∧
    (∀ (status : Nat) (body : DgBody) (language : String) ch rest,
      body.channels = ch :: rest → ch.alternatives = [] →
      deepgram_transcribe (HttpOutcome.response status body) language = none) ∧
    (∀ (status : Nat) (body : DgBody) (language : String) ch rest alt arest,
      body.channels = ch :: rest → ch.alternatives = alt :: arest →
      pyStripL alt.transcript.toList = [] →
      deepgram_transcribe (HttpOutcome.response status body) language = none) ∧
    (∀ (cfg : Config) (oracle : BackendOracle) (sid : String) (sp : Speaker)
       (st : ChannelState) (c : MeasChunk) (ts : ℚ) (sr : Option Nat),
      cfg.transcription_backend = Backend.deepgram →
      deepgram_transcribe oracle.deepgram_outcome "fr" = none →
      (process_audio_stream cfg oracle sid sp st c ts sr).emitted = none ∧
      (process_audio_stream cfg oracle sid sp st c ts sr).forwarded = false) ∧
    (∀ (cfg : Config) (oracle : BackendOracle) (sid : String) (sp : Speaker)
       (st : ChannelState) (c : MeasChunk) (ts : ℚ) (sr : Option Nat),
      cfg.deepgram_use_streaming = false →
      ((process_audio_stream cfg oracle sid sp st c ts sr).state.buffer).isSome = true) := by
  refine ⟨fun language => rfl, ?_, ?_, ?_, ?_, ?_, ?_⟩
  · intro status body language hst
    have hne : status ≠ 200 := by omega
    simp [deepgram_transcribe, hne]
  · intro status body language hch
    by_cases h200 : status = 200 <;>
      simp [deepgram_transcribe, parse_response, hch, h200]
  · intro status body language ch rest hch halt
    by_cases h200 : status = 200 <;>
      simp [deepgram_transcribe, parse_response, hch, halt, h200]
  · intro status body language ch rest alt arest hch halt htr
    have hstr : String.mk (pyStripL alt.transcript.toList) = "" := by
      rw [htr]
    by_cases h200 : status = 200
    · simp only [deepgram_transcribe, parse_response, hch, halt, h200, String.toList]
      simp only [String.toList] at hstr
      simp [hstr]
    · simp [deepgram_transcribe, h200]
  · intro cfg oracle sid sp st c ts sr hb hn
    have key : ∀ (b : AudioBuffer) (ts2 p : ℚ),
        transcribe_buffer cfg oracle sid sp b ts2 p = (none, false) :=
      fun b ts2 p => transcribe_buffer_backend_none cfg oracle sid sp b ts2 p hb hn
    unfold process_audio_stream
    split
    · split
      · simp
      · simp only [process_audio_stream_buffered]
        split_ifs <;> simp [key]
    · simp only [process_audio_stream_buffered]
      split_ifs <;> simp [key]
  · intro cfg oracle sid sp st c ts sr hstr
    unfold process_audio_stream
    have hcond : (decide (cfg.transcription_backend = Backend.deepgram)
        && cfg.deepgram_use_streaming) = false := by
      simp [hstr]
    rw [hcond]
    simp only [Bool.false_eq_true, if_false]
    simp only [process_audio_stream_buffered]
    split_ifs <;> simp

/-- Witness for `C9_batch_failure_returns_none_pipeline_continues`:
a timeout, a 500 response, and a channel-less body all yield `None`, and a
concrete VAD-mode submission under the failing batch backend emits nothing
while keeping a live buffer. -/
theorem C9_witness :
    deepgram_transcribe HttpOutcome.timeout "fr" = none ∧
    (¬ (200 ≤ 500 ∧ 500 ≤ 299)) ∧
    deepgram_transcribe (HttpOutcome.response 500 emptyBody) "fr" = none ∧
    deepgram_transcribe (HttpOutcome.response 200 emptyBody) "fr" = none ∧
    (process_audio_stream deepgramBatchConfig timeoutOracle "s" Speaker.technician
      initChannelState silenceChunk 0 none).emitted = none ∧
    ((process_audio_stream deepgramBatchConfig timeoutOracle "s" Speaker.technician
      initChannelState silenceChunk 0 none).state.buffer).isSome = true :=
  ⟨C9_batch_failure_returns_none_pipeline_continues.1 "fr",
   by omega,
   C9_batch_failure_returns_none_pipeline_continues.2.1 500 emptyBody "fr" (by omega),
   C9_batch_failure_returns_none_pipeline_continues.2.2.1 200 emptyBody "fr" rfl,
   (C9_batch_failure_returns_none_pipeline_continues.2.2.2.2.2.1
     deepgramBatchConfig timeoutOracle "s" Speaker.technician initChannelState
     silenceChunk 0 none rfl rfl).1,
   C9_batch_failure_returns_none_pipeline_continues.2.2.2.2.2.2
     deepgramBatchConfig timeoutOracle "s" Speaker.technician initChannelState
     silenceChunk 0 none rfl⟩

/-! ## Claim C3 -/

/-- The silence gate of `_transcribe_buffer` (lines 396-416) as a pure
function of the combined segment's samples and the buffer's sample rate —
the `isTooQuiet` of spec section 4.3.  The source compares
`rms < min_rms` and then `rms < min_rms * 0.5`; with `rms = sqrt(meanSq) ≥ 0`
and positive thresholds, both are decided on squares. -/
def quality_gate_rejects (samples : List Int) (sample_rate : Nat) : Bool :=
  let m := (sumSqZ samples : ℚ) / (samples.length : ℚ)
  let minRms := gateMinRms sample_rate
  (m < minRms * minRms && ((maxAbs samples : ℚ) < max_amplitude_silence))
  || (m < (minRms * (1 / 2)) * (minRms * (1 / 2)))

/-- Claim C3: the gate rejects exactly when (a) the segment's mean square
is below the squared role minimum RMS and its peak is below the
silence-peak threshold, or (b) the mean square is below the squared half
minimum; the minimum is selected per sample rate, the two roles map to the
two distinct rates, and the concrete segment `[100]` (RMS exactly 100) is
accepted for the caller (technician, 8 kHz, minimum 50) while rejected for
the operator (agent, 16 kHz, minimum 150). -/
theorem C3_quality_gate_exact_and_role_specific :
    (∀ (samples : List Int) (sample_rate : Nat), samples ≠ [] →
      (quality_gate_rejects samples sample_rate = true ↔
        ((sumSqZ samples : ℚ) / (samples.length : ℚ) <
            gateMinRms sample_rate * gateMinRms sample_rate ∧
          (maxAbs samples : ℚ) < max_amplitude_silence) ∨
        (sumSqZ samples : ℚ) / (samples.length : ℚ) <
          (gateMinRms sample_rate * (1 / 2)) * (gateMinRms sample_rate * (1 / 2)))) ∧
    gateMinRms (defaultSampleRate Speaker.technician) ≠
      gateMinRms (defaultSampleRate Speaker.agent) ∧
    quality_gate_rejects [100] (defaultSampleRate Speaker.technician) = false ∧
    quality_gate_rejects [100] (defaultSampleRate Speaker.agent) = true := by
  refine ⟨?_, ?_, ?_, ?_⟩
  · intro samples sample_rate _
    simp [quality_gate_rejects]
  · norm_num [gateMinRms, defaultSampleRate, min_rms_8k, min_rms_16k]
  · norm_num [quality_gate_rejects, gateMinRms, defaultSampleRate, sumSqZ,
      maxAbs, min_rms_8k, max_amplitude_silence]
  · norm_num [quality_gate_rejects, gateMinRms, defaultSampleRate, sumSqZ,
      maxAbs, min_rms_16k, max_amplitude_silence]

/-- Witness for `C3_quality_gate_exact_and_role_specific` at the concrete
segment `[100]` and the 8 kHz rate. -/
theorem C3_witness :
    (([100] : List Int) ≠ []) ∧
    (quality_gate_rejects [100] 8000 = true ↔
      ((sumSqZ [100] : ℚ) / (([100] : List Int).length : ℚ) <
          gateMinRms 8000 * gateMinRms 8000 ∧
        (maxAbs [100] : ℚ) < max_amplitude_silence) ∨
      (sumSqZ [100] : ℚ) / (([100] : List Int).length : ℚ) <
        (gateMinRms 8000 * (1 / 2)) * (gateMinRms 8000 * (1 / 2))) :=
  ⟨by simp,
   C3_quality_gate_exact_and_role_specific.1 [100] 8000 (by simp)⟩

/-! ## Claim C6 -/

/-- Claim C6 (amended): the dedicated decorative-symbol rule of
`_is_hallucination` counts only the bullet character: every text in which
bullets are the strict majority is rejected by that rule alone; the text of
ten musical notes is also rejected, but through the character-diversity
rule (and the phrase rule), not through a symbol-majority rule. -/
theorem C6_bullet_rule_and_music_note_example :
    (∀ s : String, s.toList.length < 2 * s.toList.count '•' →
      is_hallucination s = true) ∧
    is_hallucination "♪♪♪♪♪♪♪♪♪♪" = true := by
  constructor
  · intro s h
    simp only [is_hallucination]
    split_ifs <;> simp_all
  · decide

/-- A text in which a single decorative symbol is the strict majority of
characters, yet which the filter accepts. -/
def starText : String := "☆☆☆☆☆☆☆☆☆☆☆ abc defg"

/-- Claim C6, counterexample to the claim as stated: in `starText` more
than half of the characters are the single decorative (non-alphanumeric,
non-bullet) symbol U+2606, yet `_is_hallucination` returns `False`. -/
theorem C6_counterexample_star_majority_accepted :
    starText.toList.length < 2 * starText.toList.count '☆' ∧
    '☆' ≠ '•' ∧
    pyIsAlnum '☆' = false ∧
    is_hallucination starText = false := by
  refine ⟨by decide, by decide, by decide, by decide⟩

/-- Witness for `C6_bullet_rule_and_music_note_example` at the concrete
text of three bullets. -/
theorem C6_witness :
    ("•••".toList.length < 2 * "•••".toList.count '•') ∧
    is_hallucination "•••" = true :=
  ⟨by decide, C6_bullet_rule_and_music_note_example.1 "•••" (by decide)⟩

/-! ## Claim C1 -/

/-- Claim C1 (amended): when a streaming connection object exists for the
channel but its `is_connected` flag is false, the submitted chunk is
dropped — `send_audio` returns `False` without queueing, the channel state
(buffer, VAD state, connection and its queue) is unchanged, and nothing is
emitted or forwarded.  When no connection object exists, the source instead
logs a warning and falls through to the buffered path (see the
counterexample). -/
theorem C1_disconnected_connection_drops_chunk
    (cfg : Config) (oracle : BackendOracle) (sid : String) (sp : Speaker)
    (st : ChannelState) (conn : StreamConn) (c : MeasChunk) (ts : ℚ)
    (sr : Option Nat)
    (hb : cfg.transcription_backend = Backend.deepgram)
    (hs : cfg.deepgram_use_streaming = true)
    (hconn : st.streaming = some conn)
    (hdis : conn.is_connected = false) :
    (process_audio_stream cfg oracle sid sp st c ts sr).event =
      StepEvent.dropped_disconnected ∧
    (process_audio_stream cfg oracle sid sp st c ts sr).state = st ∧
    (process_audio_stream cfg oracle sid sp st c ts sr).emitted = none ∧
    (process_audio_stream cfg oracle sid sp st c ts sr).forwarded = false := by
  have hst : { st with streaming := some conn } = st := by
    cases st
    simp only at hconn
    simp [hconn]
  refine ⟨?_, ?_, ?_, ?_⟩ <;>
    simp [process_audio_stream, hb, hs, hconn, StreamConn.send_audio, hdis, hst]

/-- A channel whose streaming connection exists but is disconnected. -/
def disconnectedChannel : ChannelState :=
  { buffer := none, vad := none,
    streaming := some { is_connected := false, audio_queue := [] } }

/-- Claim C1, counterexample to the claim as stated: with streaming
configured but no connection object registered for the channel, the chunk
is not dropped — it is routed into the buffered path and appended to a
newly created buffer. -/
theorem C1_counterexample_absent_connection_falls_back :
    initChannelState.streaming = none ∧
    (process_audio_stream streamingConfig defaultOracle "s" Speaker.technician
      initChannelState silenceChunk 0 none).event = StepEvent.buffered ∧
    ((process_audio_stream streamingConfig defaultOracle "s" Speaker.technician
      initChannelState silenceChunk 0 none).state.buffer).map AudioBuffer.chunks =
      some [silenceChunk] := by
  refine ⟨rfl, ?_, ?_⟩ <;>
    norm_num [process_audio_stream, process_audio_stream_buffered, streamingConfig,
      initChannelState, freshBuffer, check_speech_ended, initVadState,
      silenceChunk, constChunk, bufferTotalBytes, max_buffer_duration,
      defaultSampleRate]

/-- Witness for `C1_disconnected_connection_drops_chunk` at a concrete
disconnected channel. -/
theorem C1_witness :
    streamingConfig.transcription_backend = Backend.deepgram ∧
    streamingConfig.deepgram_use_streaming = true ∧
    disconnectedChannel.streaming =
      some { is_connected := false, audio_queue := [] } ∧
    (process_audio_stream streamingConfig defaultOracle "s" Speaker.technician
      disconnectedChannel speechChunk 0 none).event =
      StepEvent.dropped_disconnected :=
  ⟨rfl, rfl, rfl,
   (C1_disconnected_connection_drops_chunk streamingConfig defaultOracle "s"
     Speaker.technician disconnectedChannel
     { is_connected := false, audio_queue := [] } speechChunk 0 none
     rfl rfl rfl rfl).1⟩

/-! ## Claim C4 -/

/-- Claim C4, evaluation of the code at the failing input: the very first
chunk of a fresh channel, submitted at the channel-creation timestamp 0
(inside the announced 0.5 s skip window), is appended to the buffer and
counted toward its duration — no initial-skip exclusion exists in the
code.  The buffer records `waiting_for_speech` and `initial_skip_start`,
but no code path reads them to drop a chunk. -/
theorem C4_first_chunk_in_skip_window_is_buffered :
    (process_audio_stream vadConfig defaultOracle "s" Speaker.technician
      initChannelState silenceChunk 0 none).event = StepEvent.buffered ∧
    ((process_audio_stream vadConfig defaultOracle "s" Speaker.technician
      initChannelState silenceChunk 0 none).state.buffer).map AudioBuffer.chunks =
      some [silenceChunk] ∧
    ((process_audio_stream vadConfig defaultOracle "s" Speaker.technician
      initChannelState silenceChunk 0 none).state.buffer).map
        AudioBuffer.total_duration = some (1 / 10) ∧
    ((process_audio_stream vadConfig defaultOracle "s" Speaker.technician
      initChannelState silenceChunk 0 none).state.buffer).map
        AudioBuffer.initial_skip_start = some 0 := by
  refine ⟨?_, ?_, ?_, ?_⟩ <;>
    norm_num [process_audio_stream, process_audio_stream_buffered, vadConfig,
      initChannelState, freshBuffer, check_speech_ended, initVadState,
      silenceChunk, constChunk, bufferTotalBytes, max_buffer_duration,
      defaultSampleRate]

/-! ## Claim C5 -/

/-- The buffer-duration invariant maintained by the append code (lines
158-161): the stored duration equals the summed per-chunk sample counts
(each `len(chunk) // 2`, floor division) divided by the sample rate. -/
def BufferDurationInv (b : AudioBuffer) : Prop :=
  b.total_duration = ((bufferTotalSamples b : ℕ) : ℚ) / (b.sample_rate : ℚ)

/-- Twice the sum of the floor halves of even numbers is their sum. -/
theorem even_sum_halves_nat (l : List Nat) (h : ∀ x ∈ l, x % 2 = 0) :
    2 * (l.map (fun x => x / 2)).sum = l.sum := by
  induction l with
  | nil => simp
  | cons a t ih =>
    have ha : a % 2 = 0 := h a (by simp)
    have ht : ∀ x ∈ t, x % 2 = 0 := fun x hx => h x (by simp [hx])
    simp only [List.map_cons, List.sum_cons]
    have := ih ht
    omega

/-- Halving distributes over the sum of a list of even numbers. -/
theorem even_sum_halves (l : List Nat) (h : ∀ x ∈ l, x % 2 = 0) :
    (((l.map (fun x => x / 2)).sum : ℕ) : ℚ) = ((l.sum : ℕ) : ℚ) / 2 := by
  have hnat := even_sum_halves_nat l h
  have hq := congrArg (fun n : ℕ => (n : ℚ)) hnat
  push_cast at hq ⊢
  linarith

/-- Either a pipeline step is the buffered-path step, or it is a
streaming-branch send/drop that leaves buffer and VAD state untouched and
emits nothing. -/
theorem process_audio_stream_cases (cfg : Config) (oracle : BackendOracle)
    (sid : String) (sp : Speaker) (st : ChannelState) (c : MeasChunk)
    (ts : ℚ) (sr : Option Nat) :
    process_audio_stream cfg oracle sid sp st c ts sr =
      process_audio_stream_buffered cfg oracle sid sp st c ts sr ∨
    ((process_audio_stream cfg oracle sid sp st c ts sr).state.buffer = st.buffer ∧
     (process_audio_stream cfg oracle sid sp st c ts sr).state.vad = st.vad ∧
     ((process_audio_stream cfg oracle sid sp st c ts sr).event =
        StepEvent.sent_to_stream ∨
      (process_audio_stream cfg oracle sid sp st c ts sr).event =
        StepEvent.dropped_disconnected) ∧
     (process_audio_stream cfg oracle sid sp st c ts sr).emitted = none) := by
  unfold process_audio_stream
  split
  · split
    · rename_i conn heq
      right
      refine ⟨rfl, rfl, ?_, rfl⟩
      by_cases hsa : (conn.send_audio c).2 = true
      · left; simp [hsa]
      · right; simp [hsa]
    · left; rfl
  · left; rfl

/-- Every buffer present after a buffered-path step satisfies the duration
invariant (append recomputes it; flushes and discards reset it). -/
theorem buffered_step_duration_inv (cfg : Config) (oracle : BackendOracle)
    (sid : String) (sp : Speaker) (st : ChannelState) (c : MeasChunk)
    (ts : ℚ) (sr : Option Nat) :
    ∀ b2, (process_audio_stream_buffered cfg oracle sid sp st c ts sr).state.buffer =
        some b2 → BufferDurationInv b2 := by
  simp only [process_audio_stream_buffered]
  split_ifs <;> intro b2 hb2 <;> simp only [Option.some.injEq] at hb2 <;>
    subst hb2 <;> simp [BufferDurationInv, bufferTotalSamples, clearedBuffer]

/-- After a buffered-path flush or discard the buffer is reset to empty
chunks with zero duration. -/
theorem buffered_step_clears (cfg : Config) (oracle : BackendOracle)
    (sid : String) (sp : Speaker) (st : ChannelState) (c : MeasChunk)
    (ts : ℚ) (sr : Option Nat) (p : ℚ) :
    ((process_audio_stream_buffered cfg oracle sid sp st c ts sr).event =
        StepEvent.flushed p ∨
     (process_audio_stream_buffered cfg oracle sid sp st c ts sr).event =
        StepEvent.discarded_low_rms ∨
     (process_audio_stream_buffered cfg oracle sid sp st c ts sr).event =
        StepEvent.discarded_too_short) →
    ∃ b2, (process_audio_stream_buffered cfg oracle sid sp st c ts sr).state.buffer =
        some b2 ∧ b2.chunks = [] ∧ b2.total_duration = 0 := by
  simp only [process_audio_stream_buffered]
  split_ifs <;> intro hev <;> simp_all [clearedBuffer]

/-- Claim C5 (amended): after every pipeline step the buffer satisfies the
duration invariant with the summed floor-halved chunk lengths (which
coincides with `totalBytes / 2 / sampleRate` exactly when every chunk has
even byte length); and every flush or discard resets the buffer to empty
chunks and zero duration, never a partial drain. -/
theorem C5_duration_invariant_and_atomic_clear :
    (∀ (cfg : Config) (oracle : BackendOracle) (sid : String) (sp : Speaker)
       (st : ChannelState) (c : MeasChunk) (ts : ℚ) (sr : Option Nat),
      (∀ b, st.buffer = some b → BufferDurationInv b) →
      ∀ b2, (process_audio_stream cfg oracle sid sp st c ts sr).state.buffer =
          some b2 → BufferDurationInv b2) ∧
    (∀ b : AudioBuffer, (∀ ch ∈ b.chunks, ch.bytes_len % 2 = 0) →
      BufferDurationInv b →
      b.total_duration = ((bufferTotalBytes b : ℕ) : ℚ) / 2 / (b.sample_rate : ℚ)) ∧
    (∀ (cfg : Config) (oracle : BackendOracle) (sid : String) (sp : Speaker)
       (st : ChannelState) (c : MeasChunk) (ts : ℚ) (sr : Option Nat) (p : ℚ),
      ((process_audio_stream cfg oracle sid sp st c ts sr).event =
          StepEvent.flushed p ∨
       (process_audio_stream cfg oracle sid sp st c ts sr).event =
          StepEvent.discarded_low_rms ∨
       (process_audio_stream cfg oracle sid sp st c ts sr).event =
          StepEvent.discarded_too_short) →
      ∃ b2, (process_audio_stream cfg oracle sid sp st c ts sr).state.buffer =
          some b2 ∧ b2.chunks = [] ∧ b2.total_duration = 0) := by
  refine ⟨?_, ?_, ?_⟩
  · intro cfg oracle sid sp st c ts sr hinv b2 hb2
    rcases process_audio_stream_cases cfg oracle sid sp st c ts sr with hc | hc
    · rw [hc] at hb2
      exact buffered_step_duration_inv cfg oracle sid sp st c ts sr b2 hb2
    · rw [hc.1] at hb2
      exact hinv b2 hb2
  · intro b hev hinv
    have hmm : (b.chunks.map (fun c => c.bytes_len / 2)) =
        ((b.chunks.map MeasChunk.bytes_len).map (fun x => x / 2)) := by
      rw [List.map_map]
      rfl
    have hhalf : ((bufferTotalSamples b : ℕ) : ℚ) =
        ((bufferTotalBytes b : ℕ) : ℚ) / 2 := by
      rw [bufferTotalSamples, bufferTotalBytes, hmm]
      exact even_sum_halves (b.chunks.map MeasChunk.bytes_len)
        (by intro x hx
            simp only [List.mem_map] at hx
            obtain ⟨ch, hch, rfl⟩ := hx
            exact hev ch hch)
    rw [BufferDurationInv] at hinv
    rw [hinv, hhalf]
  · intro cfg oracle sid sp st c ts sr p hev
    rcases process_audio_stream_cases cfg oracle sid sp st c ts sr with hc | hc
    · rw [hc] at hev ⊢
      exact buffered_step_clears cfg oracle sid sp st c ts sr p hev
    · rcases hc.2.2.1 with he | he <;> rw [he] at hev <;> simp at hev

/-- A malformed one-byte chunk (not a whole 16-bit sample). -/
def oddChunk : MeasChunk :=
  { bytes_len := 1, is_speech := false, rms := 0, sum_sq := 0, peak := 0 }

/-- Claim C5, counterexample to the exact `bytes / 2 / rate` equality as
stated: appending the one-byte chunk leaves a buffer of 1 byte whose stored
duration is 0 (the floor of 1/2 samples), while `bytes / 2 / rate` is
`1 / 2 / 8000 ≠ 0`. -/
theorem C5_counterexample_odd_byte_chunk :
    ((process_audio_stream vadConfig defaultOracle "s" Speaker.technician
      initChannelState oddChunk 0 none).state.buffer).map bufferTotalBytes =
      some 1 ∧
    ((process_audio_stream vadConfig defaultOracle "s" Speaker.technician
      initChannelState oddChunk 0 none).state.buffer).map
        AudioBuffer.sample_rate = some 8000 ∧
    ((process_audio_stream vadConfig defaultOracle "s" Speaker.technician
      initChannelState oddChunk 0 none).state.buffer).map
        AudioBuffer.total_duration = some 0 ∧
    (0 : ℚ) ≠ (1 : ℚ) / 2 / 8000 := by
  refine ⟨?_, ?_, ?_, by norm_num⟩ <;>
    norm_num [process_audio_stream, process_audio_stream_buffered, vadConfig,
      initChannelState, freshBuffer, check_speech_ended, initVadState,
      oddChunk, bufferTotalBytes, max_buffer_duration, defaultSampleRate]

/-- Witness for `C5_duration_invariant_and_atomic_clear` at a concrete
first append. -/
theorem C5_witness :
    BufferDurationInv
      { chunks := [silenceChunk], start_time := 0, last_chunk_time := 0,
        total_duration := 1 / 10, waiting_for_speech := true,
        initial_skip_start := 0, sample_rate := 8000 } :=
  C5_duration_invariant_and_atomic_clear.1 vadConfig defaultOracle "s"
    Speaker.technician initChannelState silenceChunk 0 none
    (by intro b hb; simp [initChannelState] at hb)
    _
    (by norm_num [process_audio_stream, process_audio_stream_buffered, vadConfig,
      initChannelState, freshBuffer, check_speech_ended, initVadState,
      silenceChunk, constChunk, bufferTotalBytes, max_buffer_duration,
      defaultSampleRate])

/-! ## Claim C8 -/

/-- The VAD-state invariant of the spec: `rms_samples` is non-empty
whenever `is_speaking` is true. -/
def VadInv (v : VadState) : Prop :=
  v.is_speaking = true → v.rms_samples ≠ []

/-- `check_speech_ended` preserves the speaking/non-empty invariant: the
speech branch appends before setting `is_speaking`, every other branch
either clears the flag or leaves both fields unchanged. -/
theorem check_speech_ended_preserves_inv (sp : Speaker) (st : VadState)
    (is_sp : Bool) (rms now : ℚ) (hinv : VadInv st) :
    VadInv (check_speech_ended sp st is_sp rms now).1 := by
  unfold check_speech_ended
  split_ifs <;> simp_all [VadInv]
  split_ifs <;> simp_all

/-- Claim C8 (amended): the speaking/non-empty invariant is preserved by
every `check_speech_ended` call and hence by every pipeline step, and
every segmentation decided by `check_speech_ended` itself leaves
`rms_samples` cleared; the forced max-duration flush, however, bypasses
`check_speech_ended`'s clearing (see the counterexample). -/
theorem C8_vad_invariant_and_clear_on_vad_segmentation :
    (∀ (sp : Speaker) (st : VadState) (is_sp : Bool) (rms now : ℚ),
      VadInv st → VadInv (check_speech_ended sp st is_sp rms now).1) ∧
    (∀ (sp : Speaker) (st : VadState) (is_sp : Bool) (rms now : ℚ),
      (check_speech_ended sp st is_sp rms now).2.should_segment = true →
      (check_speech_ended sp st is_sp rms now).1.rms_samples = []) ∧
    (∀ (cfg : Config) (oracle : BackendOracle) (sid : String) (sp : Speaker)
       (st : ChannelState) (c : MeasChunk) (ts : ℚ) (sr : Option Nat),
      (∀ v, st.vad = some v → VadInv v) →
      ∀ v2, (process_audio_stream cfg oracle sid sp st c ts sr).state.vad =
          some v2 → VadInv v2) := by
  refine ⟨check_speech_ended_preserves_inv, ?_, ?_⟩
  · intro sp st is_sp rms now hseg
    unfold check_speech_ended at hseg ⊢
    split_ifs at hseg ⊢ <;> simp_all
    split_ifs at hseg ⊢ <;> simp_all
  · intro cfg oracle sid sp st c ts sr hinv v2 hv2
    have hgetD : VadInv (st.vad.getD initVadState) := by
      cases hsv : st.vad with
      | none => simp [VadInv, initVadState]
      | some v => simpa using hinv v hsv
    rcases process_audio_stream_cases cfg oracle sid sp st c ts sr with hc | hc
    · rw [hc] at hv2
      revert hv2
      simp only [process_audio_stream_buffered]
      split_ifs <;> intro hv2 <;> simp only [Option.some.injEq] at hv2 <;>
        first
          | exact hinv v2 hv2
          | (subst hv2
             exact check_speech_ended_preserves_inv sp _ c.is_speech c.rms ts hgetD)
    · rw [hc.2.1] at hv2
      exact hinv v2 hv2

/-- Claim C8, counterexample to "cleared on every flush": a single 10 s
speech chunk triggers the forced max-buffer-duration flush on arrival, yet
the VAD state keeps `is_speaking = true` with its collected `rms_samples` —
the forced flush never touches the diarization service's state. -/
theorem C8_counterexample_forced_flush_keeps_rms_samples :
    (process_audio_stream vadConfig defaultOracle "s" Speaker.technician
      initChannelState (constChunk 2000 80000) 0 none).event =
      StepEvent.flushed 0 ∧
    (process_audio_stream vadConfig defaultOracle "s" Speaker.technician
      initChannelState (constChunk 2000 80000) 0 none).state.vad =
      some { is_speaking := true, silence_start := none,
             last_speech_timestamp := some 0, speech_start := some 0,
             rms_samples := [2000] } := by
  constructor <;>
    (norm_num [process_audio_stream, process_audio_stream_buffered, vadConfig,
      initChannelState, freshBuffer, clearedBuffer, check_speech_ended,
      initVadState, constChunk, bufferTotalBytes, max_buffer_duration,
      min_speech_duration, defaultSampleRate]
     try simp)

/-- Witness for `C8_vad_invariant_and_clear_on_vad_segmentation` at a
concrete speech step from the initial state. -/
theorem C8_witness :
    VadInv (check_speech_ended Speaker.technician initVadState true 2000 0).1 :=
  C8_vad_invariant_and_clear_on_vad_segmentation.1 Speaker.technician
    initVadState true 2000 0 (by simp [VadInv, initVadState])

/-! ## Claim C7 -/

/-- The silence gate's rejection condition over a buffer — the union of
the two early returns of `_transcribe_buffer` (lines 409-416). -/
def buffer_gate_fires (b : AudioBuffer) : Prop :=
  (bufferSumSq b / ((bufferTotalBytes b / 2 : ℕ) : ℚ) <
      gateMinRms b.sample_rate * gateMinRms b.sample_rate ∧
    (bufferPeak b : ℚ) < max_amplitude_silence) ∨
  bufferSumSq b / ((bufferTotalBytes b / 2 : ℕ) : ℚ) <
    (gateMinRms b.sample_rate * (1 / 2)) * (gateMinRms b.sample_rate * (1 / 2))

/-- Text accepted by the modelled Whisper path is non-empty and passed the
hallucination filter (production mode). -/
theorem whisper_accepted_text_checked (cfg : Config) (resp : Option String)
    (text : String) (conf : ℚ)
    (hdbg : cfg.debug_show_hallucinations = false)
    (ht : transcribe_with_whisper cfg resp = some (text, conf)) :
    text ≠ "" ∧ is_hallucination text = false := by
  unfold transcribe_with_whisper at ht
  rcases resp with _ | t
  · simp at ht
  · simp only [hdbg, Bool.false_eq_true, if_false] at ht
    split_ifs at ht with h1 h2
    simp only [Option.some.injEq, Prod.mk.injEq] at ht
    obtain ⟨hte, _⟩ := ht
    subst hte
    push_neg at h1
    exact ⟨h1.1, by simpa using h2⟩

/-- Claim C7 (amended): a segment is forwarded to the downstream handler
only when the channel role is the caller (`technician`) — operator
(`agent`) segments are created and returned but never pushed (see the
counterexample); each flush makes at most one `_process_with_agents` call
(the function returns a single verdict); and a forwarded or returned
segment has non-empty text that, on the Whisper path in production mode,
passed the hallucination filter, and the flush that produced it was not
rejected by the quality gate. -/
theorem C7_delivery_only_for_technician_and_only_filtered_text :
    (∀ (cfg : Config) (oracle : BackendOracle) (sid : String) (sp : Speaker)
       (b : AudioBuffer) (ts p : ℚ),
      (transcribe_buffer cfg oracle sid sp b ts p).2 = true →
      sp = Speaker.technician ∧
      ∃ r, (transcribe_buffer cfg oracle sid sp b ts p).1 = some r ∧
        r.speaker_role = Speaker.technician ∧ r.text ≠ "") ∧
    (∀ (cfg : Config) (oracle : BackendOracle) (sid : String) (sp : Speaker)
       (b : AudioBuffer) (ts p : ℚ) (r : TranscriptionResult),
      cfg.transcription_backend = Backend.whisper →
      cfg.debug_show_hallucinations = false →
      (transcribe_buffer cfg oracle sid sp b ts p).1 = some r →
      r.text ≠ "" ∧ is_hallucination r.text = false) ∧
    (∀ (cfg : Config) (oracle : BackendOracle) (sid : String) (sp : Speaker)
       (b : AudioBuffer) (ts p : ℚ),
      (transcribe_buffer cfg oracle sid sp b ts p).2 = true →
      bufferTotalBytes b % 2 = 0 → bufferTotalBytes b / 2 ≠ 0 →
      ¬ buffer_gate_fires b) := by
  refine ⟨?_, ?_, ?_⟩
  · intro cfg oracle sid sp b ts p h
    simp only [transcribe_buffer] at h ⊢
    split_ifs at h ⊢ <;> try simp at h
    rcases hbe : backend_dispatch cfg oracle with _ | ⟨text, conf⟩
    · rw [hbe] at h
      simp at h
    · rw [hbe] at h
      dsimp only at h ⊢
      split_ifs at h ⊢ with htext
      simp only [process_with_agents, decide_eq_true_eq] at h
      exact ⟨h, _, rfl, h, htext⟩
  · intro cfg oracle sid sp b ts p r hw hdbg h
    simp only [transcribe_buffer] at h
    split_ifs at h <;> try simp at h
    have hbd : backend_dispatch cfg oracle =
        transcribe_with_whisper cfg oracle.whisper_text := by
      simp [backend_dispatch, hw]
    rcases hbe : transcribe_with_whisper cfg oracle.whisper_text
      with _ | ⟨text, conf⟩
    · rw [hbd, hbe] at h
      simp at h
    · rw [hbd, hbe] at h
      dsimp only at h
      split_ifs at h with htext
      simp only [Option.some.injEq] at h
      subst h
      exact whisper_accepted_text_checked cfg oracle.whisper_text text conf
        hdbg hbe
  · intro cfg oracle sid sp b ts p h heven hn hg
    simp only [transcribe_buffer] at h
    split_ifs at h with hc0 hc1 hc2
    rcases hg with ⟨hA, hB⟩ | hC
    · exact hc1 ⟨heven, hn, hA, hB⟩
    · exact hc2 ⟨heven, hn, hC⟩

/-- `sampleText` is non-empty. -/
theorem sampleText_ne_empty : sampleText ≠ "" := by decide

/-- `sampleText` does not strip to the empty string. -/
theorem sampleText_strip_ne : String.mk (pyStripL sampleText.data) ≠ "" := by
  decide

/-- `sampleText` passes the hallucination filter. -/
theorem sampleText_not_hallucination : is_hallucination sampleText = false := by
  decide

/-- A loud (RMS 2000), 1 s, 16 kHz operator utterance. -/
def loudAgentBuffer : AudioBuffer :=
  { chunks := [constChunk 2000 16000], start_time := 0, last_chunk_time := 1,
    total_duration := 1, waiting_for_speech := true, initial_skip_start := 0,
    sample_rate := 16000 }

/-- A loud (RMS 2000), 1 s, 8 kHz caller utterance. -/
def loudTechBuffer : AudioBuffer :=
  { chunks := [constChunk 2000 8000], start_time := 0, last_chunk_time := 1,
    total_duration := 1, waiting_for_speech := true, initial_skip_start := 0,
    sample_rate := 8000 }

/-- Claim C7, counterexample to delivery for both roles: a finalized
operator (`agent`) segment is produced with valid text, yet
`_process_with_agents` skips every non-technician role, so it is never
pushed downstream. -/
theorem C7_counterexample_agent_segment_not_delivered :
    (transcribe_buffer vadConfig defaultOracle "s" Speaker.agent
      loudAgentBuffer 1 600).1 =
      some { session_id := "s", text := sampleText,
             speaker_role := Speaker.agent, confidence := 9 / 10,
             start_time := 0, end_time := 1, duration := 1, language := "fr",
             pause_duration_ms := 600 } ∧
    (transcribe_buffer vadConfig defaultOracle "s" Speaker.agent
      loudAgentBuffer 1 600).2 = false := by
  constructor <;>
    (norm_num [transcribe_buffer, backend_dispatch, transcribe_with_whisper,
      vadConfig, defaultOracle, loudAgentBuffer, constChunk, bufferTotalBytes,
      bufferSumSq, bufferPeak, gateMinRms, min_rms_16k, max_amplitude_silence,
      should_process_segment, min_speech_duration, process_with_agents,
      sampleText_ne_empty, sampleText_strip_ne, sampleText_not_hallucination]
     try decide)

/-- Witness for `C7_delivery_only_for_technician_and_only_filtered_text`
at a concrete forwarded caller segment. -/
theorem C7_witness :
    Speaker.technician = Speaker.technician ∧
    ∃ r, (transcribe_buffer vadConfig defaultOracle "s" Speaker.technician
        loudTechBuffer 1 600).1 = some r ∧
      r.speaker_role = Speaker.technician ∧ r.text ≠ "" :=
  C7_delivery_only_for_technician_and_only_filtered_text.1 vadConfig
    defaultOracle "s" Speaker.technician loudTechBuffer 1 600
    (by norm_num [transcribe_buffer, backend_dispatch, transcribe_with_whisper,
      vadConfig, defaultOracle, loudTechBuffer, constChunk, bufferTotalBytes,
      bufferSumSq, bufferPeak, gateMinRms, min_rms_8k, max_amplitude_silence,
      should_process_segment, min_speech_duration, process_with_agents,
      sampleText_ne_empty, sampleText_strip_ne, sampleText_not_hallucination,
      reduceCtorEq])

/-! ## Claim C2 -/

/-- The buffer's total duration immediately after appending chunk `c`
(the quantity lines 158-161 recompute and lines 211/240 compare). -/
def appendDuration (b : AudioBuffer) (c : MeasChunk) : ℚ :=
  ((((b.chunks ++ [c]).map (fun x => x.bytes_len / 2)).sum : ℕ) : ℚ) /
    (b.sample_rate : ℚ)

/-- Claim C2 (amended): a VAD-decided segmentation (reason
`silence_threshold_reached` or `rms_too_low`) happens only once the
accumulated trailing silence reaches the hysteresis duration (the reported
pause is at least `0.5 s * 1000`); and at a segmentation point not
rejected for low RMS, the segment is flushed exactly when the *total
buffered duration* — speech plus the trailing silence, not the speech
length alone — reaches the minimum speech duration.  A speech burst
shorter than the minimum can therefore still flush once padded by the
buffered silence (see the counterexample). -/
theorem C2_silence_hysteresis_and_total_buffered_floor :
    (∀ (sp : Speaker) (st : VadState) (is_sp : Bool) (rms now : ℚ),
      ((check_speech_ended sp st is_sp rms now).2.reason =
          SegReason.silence_threshold_reached ∨
       (check_speech_ended sp st is_sp rms now).2.reason =
          SegReason.rms_too_low) →
      (check_speech_ended sp st is_sp rms now).2.pause_ms ≥
        silence_duration_to_segment * 1000) ∧
    (∀ (cfg : Config) (oracle : BackendOracle) (sid : String) (sp : Speaker)
       (st : ChannelState) (b : AudioBuffer) (c : MeasChunk) (ts : ℚ)
       (sr : Option Nat) (p : ℚ),
      cfg.bypass_vad = false → st.buffer = some b →
      ((process_audio_stream_buffered cfg oracle sid sp st c ts sr).event =
          StepEvent.flushed p → appendDuration b c ≥ min_speech_duration) ∧
      ((process_audio_stream_buffered cfg oracle sid sp st c ts sr).event =
          StepEvent.discarded_too_short →
        appendDuration b c < min_speech_duration)) := by
  constructor
  · intro sp st is_sp rms now hr
    unfold check_speech_ended at hr ⊢
    split_ifs at hr ⊢ <;> simp_all [silence_duration_to_segment]
    all_goals try (split_ifs at * <;> simp_all)
  · intro cfg oracle sid sp st b c ts sr p hbv hb
    constructor
    · intro hev
      simp only [process_audio_stream_buffered, hb, hbv, Bool.false_eq_true,
        if_false] at hev
      split_ifs at hev <;> simp_all [appendDuration]
    · intro hev
      simp only [process_audio_stream_buffered, hb, hbv, Bool.false_eq_true,
        if_false] at hev
      split_ifs at hev <;> simp_all [appendDuration, not_le]

/-- Synthetic run: N = 0.2 s of speech-level chunks (RMS 2000) followed by
silence chunks, 100 ms each at 8 kHz. -/
def c2Chunks : List (MeasChunk × ℚ) :=
  [(speechChunk, 0), (speechChunk, 1 / 10),
   (silenceChunk, 2 / 10), (silenceChunk, 3 / 10), (silenceChunk, 4 / 10),
   (silenceChunk, 5 / 10), (silenceChunk, 6 / 10), (silenceChunk, 7 / 10)]

/-- Claim C2, counterexample to "N below the minimum always discards":
with only 0.2 s of speech (well below the 0.8 s minimum) followed by
silence, the hysteresis fires at 0.5 s of silence and the code flushes —
the minimum-duration test compares the whole buffered span (0.8 s =
speech + silence), not the speech length. -/
theorem C2_counterexample_short_speech_still_flushes :
    ((((2 * (speechChunk.bytes_len / 2) : ℕ) : ℚ) / 8000 <
      min_speech_duration)) ∧
    (runChunks vadConfig defaultOracle "s" Speaker.technician initChannelState
      c2Chunks).2 =
      [StepEvent.buffered, StepEvent.buffered, StepEvent.buffered,
       StepEvent.buffered, StepEvent.buffered, StepEvent.buffered,
       StepEvent.buffered, StepEvent.flushed 500] := by
  constructor
  · norm_num [speechChunk, constChunk, min_speech_duration]
  · norm_num [runChunks, List.foldl, c2Chunks, process_audio_stream,
      process_audio_stream_buffered, vadConfig, defaultOracle, initChannelState,
      initVadState, freshBuffer, clearedBuffer, check_speech_ended,
      speechChunk, silenceChunk, constChunk, bufferTotalBytes,
      max_buffer_duration, min_speech_duration, silence_duration_to_segment,
      get_min_rms_for_speaker, min_segment_rms_technician, defaultSampleRate]
    try simp

/-- The channel state just before the chunk that completes 0.5 s of
trailing silence in the `c2Chunks` run. -/
def c2PreBuffer : AudioBuffer :=
  { chunks := [speechChunk, speechChunk, silenceChunk, silenceChunk,
      silenceChunk, silenceChunk, silenceChunk],
    start_time := 0, last_chunk_time := 3 / 5, total_duration := 7 / 10,
    waiting_for_speech := true, initial_skip_start := 0, sample_rate := 8000 }

/-- The VAD state just before that chunk: speaking, silence since 0.2 s. -/
def c2PreVad : VadState :=
  { is_speaking := true, silence_start := some (1 / 5),
    last_speech_timestamp := some (1 / 10), speech_start := some 0,
    rms_samples := [2000, 2000] }

/-- The corresponding channel state. -/
def c2PreState : ChannelState :=
  { buffer := some c2PreBuffer, vad := some c2PreVad, streaming := none }

/-- Witness for `C2_silence_hysteresis_and_total_buffered_floor` at the
concrete chunk completing the hysteresis window. -/
theorem C2_witness :
    (check_speech_ended Speaker.technician c2PreVad false 0 (7 / 10)).2.pause_ms ≥
      silence_duration_to_segment * 1000 ∧
    appendDuration c2PreBuffer silenceChunk ≥ min_speech_duration :=
  ⟨C2_silence_hysteresis_and_total_buffered_floor.1 Speaker.technician c2PreVad
    false 0 (7 / 10)
    (Or.inl (by norm_num [check_speech_ended, c2PreVad,
      silence_duration_to_segment, get_min_rms_for_speaker,
      min_segment_rms_technician])),
   (C2_silence_hysteresis_and_total_buffered_floor.2 vadConfig defaultOracle
     "s" Speaker.technician c2PreState c2PreBuffer silenceChunk (7 / 10) none
     500 rfl rfl).1
    (by norm_num [process_audio_stream_buffered, vadConfig, c2PreState,
      c2PreBuffer, c2PreVad, check_speech_ended, silenceChunk, speechChunk,
      constChunk, clearedBuffer, bufferTotalBytes, max_buffer_duration,
      min_speech_duration, silence_duration_to_segment,
      get_min_rms_for_speaker, min_segment_rms_technician,
      defaultSampleRate] <;> try simp)⟩

end AudioPipeline
